import Mathlib

/-!
Shallow embedding of the ShopBot SaaS backend (src/main.py, src/schemas.py).

The embedded core is the Task Resolution Workflow and the Candidate
Generator: `search_products`, `create_task`, `approve_selection`, together
with the `Task` / `Bot` records from schemas.py and an association-list
model of the MongoDB document store.  Stateful endpoints are modelled as
functions from the store to (HTTP result, store); a raised HTTPException
becomes `Except.error` paired with the untouched store.  Python `int` is
`Int`; Python decimal float literals in the stubbed search results are
modelled as exact rationals.
-/

namespace ShopBot

/-- Model of FastAPI's `HTTPException(status_code=..., detail=...)`. -/
structure HTTPException where
  status_code : Nat
  detail : String
deriving DecidableEq, Repr

/-- One stubbed product search result (the dict built in `search_products`,
main.py lines 156-166).  `price` and `rating` are Python floats computed
from exact decimal literals (`round(19.99 + i*5.25, 2)` and
`round(4.2 - i*0.1, 2)`); they are modelled exactly in fixed-point:
`price_cents` is the price in hundredths, `rating_tenths` the rating in
tenths (the `round` calls are the identity on these decimal values). -/
structure Candidate where
  retailer : String
  title : String
  price_cents : Int
  rating_tenths : Int
  url : String
  image : String
deriving DecidableEq, Repr

/-- schemas.py `Bot`.  The `constraints` and `acp_config` fields are
free-form `Dict[str, Any]` maps never read by the embedded workflow
(only `retailers` is read, in `create_task`); they are not modelled. -/
structure Bot where
  user_id : String
  name : String
  goals : Option String := none
  retailers : List String := []
  model : Option String := none
deriving DecidableEq, Repr

/-- schemas.py `Task`.  `status` is one of
"queued", "running", "succeeded", "failed", "awaiting_approval". -/
structure Task where
  user_id : String
  bot_id : String
  prompt : String
  status : String := "queued"
  candidates : List Candidate := []
  selection : Option Candidate := none
  logs : List String := []
deriving DecidableEq, Repr

/-- Modelled from the external `bson` library used by main.py:
`ObjectId.is_valid(v)` on a string argument holds exactly when the string
is a 24-character hexadecimal string.  (The 12-byte-bytes acceptance of
`bson` cannot arise for ids arriving as JSON strings.) -/
def objectId_is_valid (s : String) : Bool :=
  s.length == 24 && s.data.all fun c => c.isDigit || ('a' ≤ c && c ≤ 'f') || ('A' ≤ c && c ≤ 'F')

/-- The MongoDB store restricted to the two collections the embedded core
touches, as association lists keyed by document id (`_id` as a string). -/
structure Db where
  bots : List (String × Bot) := []
  tasks : List (String × Task) := []
deriving DecidableEq, Repr

/-- `find_one({"_id": id})`: first (unique) entry with the given id. -/
def findIn {α : Type} : List (String × α) → String → Option α
  | [], _ => none
  | p :: rest, i => if p.1 = i then some p.2 else findIn rest i

def Db.findBot (db : Db) (i : String) : Option Bot := findIn db.bots i

def Db.findTask (db : Db) (i : String) : Option Task := findIn db.tasks i

/-- The write made by `find_one_and_update({"_id": id}, {"$set": ...})`:
replace the (unique) matching document. -/
def setIn {α : Type} : List (String × α) → String → α → List (String × α)
  | [], _, _ => []
  | p :: rest, i, a => if p.1 = i then (p.1, a) :: rest else p :: setIn rest i a

/-- main.py line 135. -/
def SUPPORTED_RETAILERS : List String := ["amazon", "walmart", "bestbuy", "target", "shopify"]

/-- main.py `SearchQuery` request body (lines 143-146). -/
structure SearchQuery where
  query : String
  retailer : Option String := none
  limit : Int := 5
deriving DecidableEq, Repr

/-- Python `(payload.retailer or "amazon")`: `None` and `""` are falsy. -/
def retailerOrAmazon : Option String → String
  | none => "amazon"
  | some s => if s = "" then "amazon" else s

/-- Python `str.lower()` restricted to ASCII case mapping (retailer names
are ASCII), applied characterwise. -/
def lowerAscii (s : String) : String :=
  String.mk (s.data.map Char.toLower)

/-- The stub item built for index `i` in `search_products` (main.py
lines 156-166): `19.99 + i*5.25` dollars and `4.2 - i*0.1` stars, held
in exact fixed-point (hundredths and tenths respectively). -/
def stubItem (retailer query : String) (i : Nat) : Candidate :=
  let n := i + 1
  { retailer := retailer
    title := s!"{query} - Option {n}"
    price_cents := 1999 + 525 * (i : Int)
    rating_tenths := 42 - (i : Int)
    url := s!"https://{retailer}.example.com/product/{n}"
    image := "https://via.placeholder.com/300x200.png?text=Product" }

/-- main.py `search_products` (lines 149-167).  Pure: touches no store.
`for i in range(min(payload.limit, 8))` produces `(min limit 8).toNat`
items (an empty range when the clamped limit is negative). -/
def search_products (payload : SearchQuery) : Except HTTPException (List Candidate) :=
  let retailer := lowerAscii (retailerOrAmazon payload.retailer)
  if retailer ∈ SUPPORTED_RETAILERS then
    Except.ok ((List.range (min payload.limit 8).toNat).map fun i => stubItem retailer payload.query i)
  else
    Except.error ⟨400, "Unsupported retailer"⟩

/-- main.py `CreateTask` request body (lines 171-174). -/
structure CreateTaskPayload where
  user_id : String
  bot_id : String
  prompt : String
deriving DecidableEq, Repr

/-- Python `(bot.get("retailers") or ["amazon"])[0]` (main.py line 183):
an empty retailer list is falsy and falls back to `["amazon"]`. -/
def firstRetailer : List String → String
  | [] => "amazon"
  | r :: _ => r

/-- The second initial log entry, Python
`f"Searched {len(candidates)} candidates"` (main.py line 191). -/
def searchedLog (n : Nat) : String := s!"Searched {n} candidates"

/-- main.py `create_task` (lines 177-195).  `newId` is the id the store
assigns to the created document.  Returns the HTTP result together with
the resulting store; every error path leaves the store untouched (the
only write is the final `create_document`). -/
def create_task (db : Db) (newId : String) (payload : CreateTaskPayload) :
    Except HTTPException Task × Db :=
  let bot := if objectId_is_valid payload.bot_id then db.findBot payload.bot_id else none
  match bot with
  | none => (Except.error ⟨404, "Bot not found"⟩, db)
  | some b =>
    match search_products { query := payload.prompt, retailer := some (firstRetailer b.retailers), limit := 5 } with
    | Except.error e => (Except.error e, db)
    | Except.ok candidates =>
      let task : Task :=
        { user_id := payload.user_id
          bot_id := payload.bot_id
          prompt := payload.prompt
          status := "awaiting_approval"
          candidates := candidates
          selection := none
          logs := ["Task created", searchedLog candidates.length] }
      (Except.ok task, { db with tasks := db.tasks ++ [(newId, task)] })

/-- main.py `ApproveSelection` request body (lines 207-209). -/
structure ApprovePayload where
  task_id : String
  index : Int
deriving DecidableEq, Repr

/-- main.py `approve_selection` (lines 212-229).  Returns the HTTP result
together with the resulting store; every error is raised before the
`find_one_and_update` write, so error paths leave the store untouched. -/
def approve_selection (db : Db) (payload : ApprovePayload) :
    Except HTTPException Task × Db :=
  if objectId_is_valid payload.task_id then
    match db.findTask payload.task_id with
    | none => (Except.error ⟨404, "Task not found"⟩, db)
    | some task =>
      let candidates := task.candidates
      if hidx : payload.index < 0 ∨ (candidates.length : Int) ≤ payload.index then
        (Except.error ⟨400, "Invalid candidate index"⟩, db)
      else
        let selection := candidates.get ⟨payload.index.toNat, by omega⟩
        let updated : Task := { task with selection := some selection, status := "succeeded" }
        (Except.ok updated, { db with tasks := setIn db.tasks payload.task_id updated })
  else
    (Except.error ⟨400, "Invalid task id"⟩, db)

/-! Helper lemmas. -/

theorem findIn_setIn {α : Type} (l : List (String × α)) (i : String) (a b : α)
    (h : findIn l i = some a) : findIn (setIn l i b) i = some b := by
  induction l with
  | nil => simp [findIn] at h
  | cons p rest ih =>
    by_cases hp : p.1 = i
    · simp [findIn, setIn, hp]
    · simp only [findIn, setIn, hp, if_false, if_neg hp] at h ⊢
      exact ih h

/-- Evaluation of `search_products` on a retailer already in the supported
set: such a retailer is nonempty and already lowercase, so normalization
leaves it unchanged and the stubbed item list is returned. -/
theorem search_products_supported (q r : String) (limit : Int)
    (hr : r ∈ SUPPORTED_RETAILERS) :
    search_products { query := q, retailer := some r, limit := limit } =
      Except.ok ((List.range (min limit 8).toNat).map fun i => stubItem r q i) := by
  simp only [SUPPORTED_RETAILERS] at hr
  fin_cases hr <;> rfl

end ShopBot

deriving instance DecidableEq for Except

namespace ShopBot

/-! Claim theorems. -/

/-- C5: for every query, supported retailer and integer limit, the search
result has exactly `limit` elements when `0 ≤ limit ≤ 8`, and in general
exactly `max 0 (min limit 8)` elements (the limit clamped into [0, 8]). -/
theorem C5_search_length (q r : String) (limit : Int)
    (hr : r ∈ SUPPORTED_RETAILERS) :
    ∃ items, search_products { query := q, retailer := some r, limit := limit } = Except.ok items ∧
      (items.length : Int) = max 0 (min limit 8) ∧
      (0 ≤ limit → limit ≤ 8 → (items.length : Int) = limit) := by
  refine ⟨_, search_products_supported q r limit hr, ?_, ?_⟩ <;>
    simp only [List.length_map, List.length_range] <;> omega

/-- C5 witness: retailer "walmart", limit 8 (and the clamp at limit 8). -/
theorem C5_witness :
    ∃ items, search_products { query := "tv", retailer := some "walmart", limit := 8 } = Except.ok items ∧
      (items.length : Int) = max 0 (min 8 8) ∧
      (0 ≤ (8 : Int) → (8 : Int) ≤ 8 → (items.length : Int) = 8) :=
  C5_search_length "tv" "walmart" 8 (by decide)

/-- C6 counterexample: the string "Amazon" is not a member of the
supported-retailer enumeration, yet `Search` succeeds on it (the code
lowercases before validating), refuting the claim as stated. -/
theorem C6_counterexample :
    "Amazon" ∉ SUPPORTED_RETAILERS ∧
    search_products { query := "q", retailer := some "Amazon", limit := 1 } =
      Except.ok [stubItem "amazon" "q" 0] := by
  exact ⟨by decide, by decide⟩

/-- C6 amended: for every provided nonempty retailer string whose
lowercased form is not in the supported enumeration, `Search` fails with
UnsupportedRetailer (HTTP 400) and produces no result sequence. -/
theorem C6_amended_unsupported (q r : String) (limit : Int)
    (hne : r ≠ "") (hr : lowerAscii r ∉ SUPPORTED_RETAILERS) :
    search_products { query := q, retailer := some r, limit := limit } =
      Except.error ⟨400, "Unsupported retailer"⟩ := by
  simp only [search_products, retailerOrAmazon, if_neg hne]
  rw [if_neg hr]

/-- C6 amended witness: retailer "ebay". -/
theorem C6_amended_witness :
    search_products { query := "q", retailer := some "ebay", limit := 5 } =
      Except.error ⟨400, "Unsupported retailer"⟩ :=
  C6_amended_unsupported "q" "ebay" 5 (by decide) (by decide)

/-- C10: search substitutes "amazon" for an absent or empty retailer, and
lowercases: an absent or empty retailer behaves exactly like "amazon",
and every retailer whose lowercase form is supported succeeds, each
result carrying the lowercased retailer name. -/
theorem C10_search_normalization (q r : String) (limit : Int)
    (hr : lowerAscii r ∈ SUPPORTED_RETAILERS) :
    search_products { query := q, retailer := none, limit := limit } =
      search_products { query := q, retailer := some "amazon", limit := limit } ∧
    search_products { query := q, retailer := some "", limit := limit } =
      search_products { query := q, retailer := some "amazon", limit := limit } ∧
    ∃ items, search_products { query := q, retailer := some r, limit := limit } = Except.ok items ∧
      ∀ c ∈ items, c.retailer = lowerAscii r := by
  have hne : r ≠ "" := by
    intro h
    rw [h] at hr
    exact absurd hr (by decide)
  refine ⟨rfl, rfl, ?_⟩
  simp only [search_products, retailerOrAmazon, if_neg hne]
  rw [if_pos hr]
  refine ⟨_, rfl, ?_⟩
  intro c hc
  simp only [List.mem_map] at hc
  obtain ⟨i, _, rfl⟩ := hc
  rfl

/-- Evaluation of `approve_selection` on a valid task id, a found task
and an in-range index: the candidate at the index becomes the selection,
the status becomes "succeeded", and the updated document replaces the
stored one. -/
theorem approve_selection_ok (db : Db) (p : ApprovePayload) (task : Task) (c : Candidate)
    (hid : objectId_is_valid p.task_id = true)
    (hfound : db.findTask p.task_id = some task)
    (h0 : 0 ≤ p.index) (hlt : p.index < (task.candidates.length : Int))
    (hc : task.candidates.get? p.index.toNat = some c) :
    approve_selection db p =
      (Except.ok { task with selection := some c, status := "succeeded" },
       { db with tasks := setIn db.tasks p.task_id { task with selection := some c, status := "succeeded" } }) := by
  rw [approve_selection, hid]
  simp only [if_true]
  rw [hfound]
  simp only []
  rw [dif_neg (by omega)]
  obtain ⟨hw, hget⟩ := List.get?_eq_some.mp hc
  simp only [hget]

/-- Shared concrete fixtures: a bot document id, a task document id, the
five stub candidates a search for "wireless mouse" on "amazon" returns,
and a persisted task holding them. -/
def botId0 : String := "0123456789abcdef01234567"

def taskId0 : String := "aaaaaaaaaaaaaaaaaaaaaaaa"

def candidates5 : List Candidate :=
  (List.range 5).map fun i => stubItem "amazon" "wireless mouse" i

def task5 : Task :=
  { user_id := "u1", bot_id := botId0, prompt := "wireless mouse",
    status := "awaiting_approval", candidates := candidates5,
    selection := none, logs := ["Task created", "Searched 5 candidates"] }

def db5 : Db := { tasks := [(taskId0, task5)] }

/-- C1: for every persisted task and every in-range index, Approve sets
the selection to the candidate at that index, sets the status to
"succeeded", and returns the updated (and persisted) task. -/
theorem C1_approve_sets_selection (db : Db) (p : ApprovePayload) (task : Task)
    (hid : objectId_is_valid p.task_id = true)
    (hfound : db.findTask p.task_id = some task)
    (h0 : 0 ≤ p.index) (hlt : p.index < (task.candidates.length : Int)) :
    ∃ t db2, approve_selection db p = (Except.ok t, db2) ∧
      t.selection = task.candidates.get? p.index.toNat ∧
      t.status = "succeeded" ∧
      db2.findTask p.task_id = some t := by
  have hw : p.index.toNat < task.candidates.length := by omega
  have hc := List.get?_eq_get hw
  refine ⟨_, _, approve_selection_ok db p task _ hid hfound h0 hlt hc, ?_, rfl, ?_⟩
  · rw [hc]
  · exact findIn_setIn _ _ _ _ hfound

/-- C1 witness: Approve at index 2 on a persisted task with 5 candidates. -/
theorem C1_witness :
    ∃ t db2, approve_selection db5 { task_id := taskId0, index := 2 } = (Except.ok t, db2) ∧
      t.selection = task5.candidates.get? (Int.toNat 2) ∧
      t.status = "succeeded" ∧
      db2.findTask taskId0 = some t :=
  C1_approve_sets_selection db5 { task_id := taskId0, index := 2 } task5
    (by decide) (by decide) (by decide) (by decide)

/-- C3: for every persisted task and every index outside
`0 ≤ index < len(candidates)`, Approve fails with InvalidIndex
(HTTP 400) and returns the store unchanged: no write occurs. -/
theorem C3_approve_out_of_range (db : Db) (p : ApprovePayload) (task : Task)
    (hid : objectId_is_valid p.task_id = true)
    (hfound : db.findTask p.task_id = some task)
    (hout : p.index < 0 ∨ (task.candidates.length : Int) ≤ p.index) :
    approve_selection db p = (Except.error ⟨400, "Invalid candidate index"⟩, db) := by
  rw [approve_selection, hid]
  simp only [if_true]
  rw [hfound]
  simp only []
  rw [dif_pos hout]

/-- C3 witness: Approve at index 5 on a persisted task with 5 candidates. -/
theorem C3_witness :
    approve_selection db5 { task_id := taskId0, index := 5 } =
      (Except.error ⟨400, "Invalid candidate index"⟩, db5) :=
  C3_approve_out_of_range db5 { task_id := taskId0, index := 5 } task5
    (by decide) (by decide) (by decide)

/-- C4: a task already in status "succeeded" with a nonempty candidate
list can be approved again at any valid index: the call succeeds, reads
the unchanged candidate list and silently overwrites the selection, the
status staying "succeeded" — there is no AlreadyResolved guard. -/
theorem C4_reapproval_overwrites (db : Db) (p : ApprovePayload) (task : Task)
    (hid : objectId_is_valid p.task_id = true)
    (hfound : db.findTask p.task_id = some task)
    (hstatus : task.status = "succeeded")
    (hne : task.candidates ≠ [])
    (h0 : 0 ≤ p.index) (hlt : p.index < (task.candidates.length : Int)) :
    ∃ t db2, approve_selection db p = (Except.ok t, db2) ∧
      t.candidates = task.candidates ∧
      t.selection = task.candidates.get? p.index.toNat ∧
      t.status = "succeeded" := by
  have hw : p.index.toNat < task.candidates.length := by omega
  have hc := List.get?_eq_get hw
  refine ⟨_, _, approve_selection_ok db p task _ hid hfound h0 hlt hc, rfl, ?_, rfl⟩
  rw [hc]

/-- C4 witness: re-approving an already succeeded task at index 1. -/
theorem C4_witness :
    ∃ t db2,
      approve_selection
        { tasks := [(taskId0, { task5 with status := "succeeded", selection := some (stubItem "amazon" "wireless mouse" 0) })] }
        { task_id := taskId0, index := 1 } = (Except.ok t, db2) ∧
      t.candidates = ({ task5 with status := "succeeded", selection := some (stubItem "amazon" "wireless mouse" 0) } : Task).candidates ∧
      t.selection = ({ task5 with status := "succeeded", selection := some (stubItem "amazon" "wireless mouse" 0) } : Task).candidates.get? (Int.toNat 1) ∧
      t.status = "succeeded" :=
  C4_reapproval_overwrites
    { tasks := [(taskId0, { task5 with status := "succeeded", selection := some (stubItem "amazon" "wireless mouse" 0) })] }
    { task_id := taskId0, index := 1 }
    { task5 with status := "succeeded", selection := some (stubItem "amazon" "wireless mouse" 0) }
    (by decide) (by decide) (by decide) (by decide) (by decide) (by decide)

/-- C8: a successful Approve mutates only `selection` and `status`: the
user_id, bot_id, prompt, candidates and logs of the persisted task after
the call equal their values before. -/
theorem C8_approve_frame (db : Db) (p : ApprovePayload) (task : Task)
    (hid : objectId_is_valid p.task_id = true)
    (hfound : db.findTask p.task_id = some task)
    (h0 : 0 ≤ p.index) (hlt : p.index < (task.candidates.length : Int)) :
    ∃ t db2, approve_selection db p = (Except.ok t, db2) ∧
      db2.findTask p.task_id = some t ∧
      t.user_id = task.user_id ∧
      t.bot_id = task.bot_id ∧
      t.prompt = task.prompt ∧
      t.candidates = task.candidates ∧
      t.logs = task.logs := by
  have hw : p.index.toNat < task.candidates.length := by omega
  have hc := List.get?_eq_get hw
  exact ⟨_, _, approve_selection_ok db p task _ hid hfound h0 hlt hc,
    findIn_setIn _ _ _ _ hfound, rfl, rfl, rfl, rfl, rfl⟩

/-- C8 witness: frame condition at index 0 on the fixture task. -/
theorem C8_witness :
    ∃ t db2, approve_selection db5 { task_id := taskId0, index := 0 } = (Except.ok t, db2) ∧
      db2.findTask taskId0 = some t ∧
      t.user_id = task5.user_id ∧
      t.bot_id = task5.bot_id ∧
      t.prompt = task5.prompt ∧
      t.candidates = task5.candidates ∧
      t.logs = task5.logs :=
  C8_approve_frame db5 { task_id := taskId0, index := 0 } task5
    (by decide) (by decide) (by decide) (by decide)

/-- Evaluation of `create_task` when the bot id is well-formed, the bot
exists and the search on its first retailer succeeds. -/
theorem create_task_ok (db : Db) (newId : String) (p : CreateTaskPayload) (b : Bot)
    (items : List Candidate)
    (hid : objectId_is_valid p.bot_id = true)
    (hbot : db.findBot p.bot_id = some b)
    (hsearch : search_products { query := p.prompt, retailer := some (firstRetailer b.retailers), limit := 5 } = Except.ok items) :
    create_task db newId p =
      (Except.ok
        { user_id := p.user_id, bot_id := p.bot_id, prompt := p.prompt,
          status := "awaiting_approval", candidates := items, selection := none,
          logs := ["Task created", searchedLog items.length] },
       { db with tasks := db.tasks ++
          [(newId,
            { user_id := p.user_id, bot_id := p.bot_id, prompt := p.prompt,
              status := "awaiting_approval", candidates := items, selection := none,
              logs := ["Task created", searchedLog items.length] })] }) := by
  rw [create_task, hid]
  simp only [if_true]
  rw [hbot]
  simp only []
  rw [hsearch]

/-- More fixtures: an empty store, a bot whose only retailer is the
unsupported "ebay", and a bot configured with retailer "amazon". -/
def emptyDb : Db := { }

def ebayBot : Bot := { user_id := "u1", name := "b1", retailers := ["ebay"] }

def ebayDb : Db := { bots := [(botId0, ebayBot)] }

def amazonBot : Bot := { user_id := "u1", name := "b1", retailers := ["amazon"] }

def amazonDb : Db := { bots := [(botId0, amazonBot)] }

def newTaskId : String := "bbbbbbbbbbbbbbbbbbbbbbbb"

/-- C2 counterexample: an existing bot whose first configured retailer is
"ebay" (not in the supported set): CreateTask fails with HTTP 400
"Unsupported retailer" and produces no task at all, refuting the claim
that every existing bot yields a task with five candidates. -/
theorem C2_counterexample :
    Db.findBot ebayDb botId0 = some ebayBot ∧
    create_task ebayDb newTaskId { user_id := "u1", bot_id := botId0, prompt := "wireless mouse" } =
      (Except.error ⟨400, "Unsupported retailer"⟩, ebayDb) := by
  exact ⟨by decide, by decide⟩

/-- C2 amended: CreateTask on an existing bot whose first configured
retailer (with fallback "amazon" for an empty list) is in the supported
set produces a task with status "awaiting_approval", exactly 5
candidates all carrying that retailer, and exactly the two initial log
entries: the creation marker then the count-of-candidates marker. -/
theorem C2_amended_create_task (db : Db) (newId : String) (p : CreateTaskPayload) (b : Bot)
    (hid : objectId_is_valid p.bot_id = true)
    (hbot : db.findBot p.bot_id = some b)
    (hsup : firstRetailer b.retailers ∈ SUPPORTED_RETAILERS) :
    ∃ t db2, create_task db newId p = (Except.ok t, db2) ∧
      t.status = "awaiting_approval" ∧
      t.candidates.length = 5 ∧
      (∀ c ∈ t.candidates, c.retailer = firstRetailer b.retailers) ∧
      t.logs = ["Task created", "Searched 5 candidates"] := by
  have hsearch := search_products_supported p.prompt (firstRetailer b.retailers) 5 hsup
  refine ⟨_, _, create_task_ok db newId p b _ hid hbot hsearch, rfl, ?_, ?_, ?_⟩
  · simp only [List.length_map, List.length_range]
    decide
  · intro c hc
    simp only [List.mem_map] at hc
    obtain ⟨i, _, rfl⟩ := hc
    rfl
  · simp only [List.length_map, List.length_range]
    decide

/-- C2 witness: bot with retailers ["amazon"], prompt "wireless mouse". -/
theorem C2_witness :
    ∃ t db2,
      create_task amazonDb newTaskId { user_id := "u1", bot_id := botId0, prompt := "wireless mouse" } =
        (Except.ok t, db2) ∧
      t.status = "awaiting_approval" ∧
      t.candidates.length = 5 ∧
      (∀ c ∈ t.candidates, c.retailer = firstRetailer amazonBot.retailers) ∧
      t.logs = ["Task created", "Searched 5 candidates"] :=
  C2_amended_create_task amazonDb newTaskId
    { user_id := "u1", bot_id := botId0, prompt := "wireless mouse" } amazonBot
    (by decide) (by decide) (by decide)

/-- Evaluation of `create_task` when the bot id is malformed or absent
from the store: the 404 is raised before the write, so the store is
returned unchanged. -/
theorem create_task_no_bot (db : Db) (newId : String) (p : CreateTaskPayload)
    (hbot : objectId_is_valid p.bot_id = false ∨ db.findBot p.bot_id = none) :
    create_task db newId p = (Except.error ⟨404, "Bot not found"⟩, db) := by
  rw [create_task]
  rcases hbot with h | h
  · rw [h]
    rfl
  · cases hv : objectId_is_valid p.bot_id
    · rfl
    · rw [if_pos rfl, h]

/-- C7: whenever the bot id does not resolve to an existing bot record
(whether malformed or simply absent), CreateTask fails with BotNotFound
(HTTP 404) and the store is returned unchanged: no task is persisted. -/
theorem C7_bot_not_found (db : Db) (newId : String) (p : CreateTaskPayload)
    (hbot : objectId_is_valid p.bot_id = false ∨ db.findBot p.bot_id = none) :
    create_task db newId p = (Except.error ⟨404, "Bot not found"⟩, db) :=
  create_task_no_bot db newId p hbot

/-- C7 witness: an existing-format bot id that is absent from the store. -/
theorem C7_witness :
    create_task emptyDb newTaskId { user_id := "u1", bot_id := botId0, prompt := "p" } =
      (Except.error ⟨404, "Bot not found"⟩, emptyDb) :=
  C7_bot_not_found emptyDb newTaskId { user_id := "u1", bot_id := botId0, prompt := "p" }
    (Or.inr (by decide))

/-- C9 counterexample: CreateTask with the syntactically invalid bot id
"bad-id" is rejected as BotNotFound (HTTP 404 "Bot not found"), a
not-found error rather than an HTTP 400 validation error, refuting the
claim that every malformed-id request fails as a validation error. -/
theorem C9_counterexample :
    objectId_is_valid "bad-id" = false ∧
    create_task emptyDb newTaskId { user_id := "u1", bot_id := "bad-id", prompt := "p" } =
      (Except.error ⟨404, "Bot not found"⟩, emptyDb) := by
  exact ⟨by decide, by decide⟩

/-- C9 amended: a malformed id is always rejected before any mutation
(the store comes back unchanged), but the two endpoints classify it
differently: Approve with a malformed task id fails as a validation
error (HTTP 400), while CreateTask with a malformed bot id folds it
into BotNotFound (HTTP 404), not a validation error. -/
theorem C9_amended_malformed_ids (db : Db) (newId : String)
    (cp : CreateTaskPayload) (ap : ApprovePayload)
    (h1 : objectId_is_valid cp.bot_id = false)
    (h2 : objectId_is_valid ap.task_id = false) :
    create_task db newId cp = (Except.error ⟨404, "Bot not found"⟩, db) ∧
    approve_selection db ap = (Except.error ⟨400, "Invalid task id"⟩, db) := by
  refine ⟨create_task_no_bot db newId cp (Or.inl h1), ?_⟩
  rw [approve_selection, h2]
  rfl

/-- C9 amended witness: malformed ids "bad-id" and "nope". -/
theorem C9_witness :
    create_task emptyDb newTaskId { user_id := "u1", bot_id := "bad-id", prompt := "p" } =
      (Except.error ⟨404, "Bot not found"⟩, emptyDb) ∧
    approve_selection emptyDb { task_id := "nope", index := 0 } =
      (Except.error ⟨400, "Invalid task id"⟩, emptyDb) :=
  C9_amended_malformed_ids emptyDb newTaskId
    { user_id := "u1", bot_id := "bad-id", prompt := "p" }
    { task_id := "nope", index := 0 }
    (by decide) (by decide)

/-- C10 witness: retailer "Amazon" (mixed case). -/
theorem C10_witness :
    search_products { query := "q", retailer := none, limit := 3 } =
      search_products { query := "q", retailer := some "amazon", limit := 3 } ∧
    search_products { query := "q", retailer := some "", limit := 3 } =
      search_products { query := "q", retailer := some "amazon", limit := 3 } ∧
    ∃ items, search_products { query := "q", retailer := some "Amazon", limit := 3 } = Except.ok items ∧
      ∀ c ∈ items, c.retailer = lowerAscii "Amazon" :=
  C10_search_normalization "q" "Amazon" 3 (by decide)

end ShopBot
